import Mathlib

/-!
Verification development for a socket.io rock-paper-scissors game backend.

The repository holds two source files:
* `src/unnamed/part_000`, which contains two revisions of the game server
  separated by a document marker: a revision with pause support and an
  interval-based countdown (its lines 1-215, embedded below in namespace
  `V1`), and the revision most claims cite (its lines 215-429, embedded
  below at the top level of namespace `RPSGame`);
* `src/socket.js`, a simpler variant with a room-capacity check and no
  game logic, embedded below in namespace `SJ`.

JavaScript objects used as dictionaries are embedded as insertion-ordered
association lists: assigning to an existing key updates it in place,
assigning to a fresh key appends it.  The dictionary keys appearing in the
program (usernames, room names, socket.io ids) are not array-index-like
strings, so JavaScript's own enumeration order for them is insertion order.

Timers are embedded explicitly: a room's `roundTimeout` handle is a Boolean
"armed" flag (set by `setTimeout`/`setInterval`, lowered by
`clearTimeout`/`clearInterval`), and the body of each timer callback is a
separate function on the global state.  Reconnection-grace `setTimeout`
calls, which the source never cancels, are recorded in a `graceTimers`
list; firing one is only considered for a recorded timer, and consumes it.

Handlers return `Option (state × emissions)`: `none` marks arguments on
which the source either throws a TypeError or leaves the fragment modelled
here (propagation of `undefined` keys and NaN scores); no theorem below
depends on a `none` branch.
-/

namespace RPSGame

/-! ### JS-object-style association maps -/

def lookupKey {κ α : Type} [DecidableEq κ] : List (κ × α) → κ → Option α
  | [], _ => none
  | (k, v) :: m, k1 => if k = k1 then some v else lookupKey m k1

def setKey {κ α : Type} [DecidableEq κ] : List (κ × α) → κ → α → List (κ × α)
  | [], k, v => [(k, v)]
  | (k1, v1) :: m, k, v => if k1 = k then (k, v) :: m else (k1, v1) :: setKey m k v

def eraseKey {κ α : Type} [DecidableEq κ] : List (κ × α) → κ → List (κ × α)
  | [], _ => []
  | (k1, v1) :: m, k => if k1 = k then eraseKey m k else (k1, v1) :: eraseKey m k

/-! ### Data model of the game revision at `src/unnamed/part_000` lines 215-429 -/

/-- Timing constants of the lines 215-429 revision. -/
def CHOICE_TIME : Nat := 20000

def RECONNECTION_TIME : Nat := 20000

/-- One entry of the `connectedUsers` registry:
`connectedUsers[socket.id] = { username, room, socketId: socket.id }`. -/
structure Conn where
  username : String
  room : String
  socketId : Nat
deriving DecidableEq, Repr

/-- One entry of a room's `connectedUsers` slot list: `{ username, socketId }`. -/
structure Slot where
  username : String
  socketId : Nat
deriving DecidableEq, Repr

/-- `roomStates[ROOM_NAME]`.  `roundTimeout = true` means an uncancelled
round `setTimeout` handle is pending. -/
structure RoomState where
  connectedUsers : List Slot
  scores : List (String × Nat)
  round : Nat
  choices : List (String × String)
  roundTimeout : Bool
deriving DecidableEq, Repr

/-- The module-level mutable state, plus the list of scheduled
reconnection-grace `setTimeout`s (the source stores no handle for them). -/
structure GState where
  connectedUsers : List (Nat × Conn)
  roomStates : List (String × RoomState)
  graceTimers : List (String × String)
deriving DecidableEq, Repr

/-- Outbound transport events of the lines 215-429 revision. -/
inductive Emit where
  | toSocket (sid : Nat) (event text : String)
  | toRoom (room event text : String)
  | roundResult (room : String) (round : Nat) (choices : List (String × String))
      (result : String) (scores : List (String × Nat))
  | startRound (room : String) (round timer : Nat)
  | gameOver (room winner : String)
deriving DecidableEq, Repr

def initState : GState := { connectedUsers := [], roomStates := [], graceTimers := [] }

/-! ### Round resolver -/

/-- The object literal `{ rock: 'scissors', paper: 'rock', scissors: 'paper' }`
read at an arbitrary string key.  Property reads at other keys yield
`undefined` in the source (inherited `Object.prototype` members are
functions, which compare unequal to every string), so `none` is faithful
for the string-to-string comparison the caller performs. -/
def winMap : String → Option String
  | "rock" => some "scissors"
  | "paper" => some "rock"
  | "scissors" => some "paper"
  | _ => none

def determineRoundWinner (choice1 choice2 : String) : String :=
  if choice1 = choice2 then "tie"
  else if winMap choice1 = some choice2 then "player1" else "player2"

/-! ### Game handlers, lines 215-429 revision -/

/-- `cleanupGame`: clear the round timeout and delete the room.  The
registry is untouched by this revision's cleanup. -/
def cleanupGame (ROOM_NAME : String) (s : GState) : GState :=
  match lookupKey s.roomStates ROOM_NAME with
  | some _ => { s with roomStates := eraseKey s.roomStates ROOM_NAME }
  | none => s

/-- `startNextRound`: clear any previous round timeout, arm a fresh one,
announce the round. -/
def startNextRound (ROOM_NAME : String) (s : GState) : Option (GState × List Emit) :=
  match lookupKey s.roomStates ROOM_NAME with
  | none => none
  | some rs =>
    some ({ s with roomStates := setKey s.roomStates ROOM_NAME { rs with roundTimeout := true } },
      [Emit.startRound ROOM_NAME rs.round (CHOICE_TIME / 1000)])

/-- `['rock', 'paper', 'scissors'].includes(choice)`; `includes` of
`null`/`undefined` is false. -/
def validChoice : Option String → Bool
  | some c => ["rock", "paper", "scissors"].contains c
  | none => false

/-- `roomState.scores[u]++` when `u` is bound; an unbound key would become
NaN in the source, which is outside the modelled fragment. -/
def incKey (m : List (String × Nat)) (u : String) : Option (List (String × Nat)) :=
  match lookupKey m u with
  | some n => some (setKey m u (n + 1))
  | none => none

/-- The resolution half of `handlePlayerChoice`, entered after the choice
was recorded: fires exactly when the `choices` object holds 2 keys. -/
def resolveIfReady (room : String) (rs1 : RoomState) (s1 : GState) :
    Option (GState × List Emit) :=
  if rs1.choices.length = 2 then
    match rs1.connectedUsers with
    | [p1s, p2s] =>
      let player1 := p1s.username
      let player2 := p2s.username
      match lookupKey rs1.choices player1, lookupKey rs1.choices player2 with
      | some c1, some c2 =>
        let result := determineRoundWinner c1 c2
        let scores1 :=
          if result = "player1" then incKey rs1.scores player1
          else if result = "player2" then incKey rs1.scores player2
          else if result = "tie" then (incKey rs1.scores player1).bind (fun m => incKey m player2)
          else some rs1.scores
        match scores1 with
        | none => none
        | some scores2 =>
          let em1 := Emit.roundResult room rs1.round rs1.choices result scores2
          let rs2 := { rs1 with scores := scores2, choices := [], round := rs1.round + 1 }
          let s2 := { s1 with roomStates := setKey s1.roomStates room rs2 }
          match lookupKey scores2 player1, lookupKey scores2 player2 with
          | some a, some b =>
            if a = 5 ∨ b = 5 then
              let winner0 := if a = 5 then player1 else player2
              let winner := if a = b then "tie" else winner0
              some (cleanupGame room s2, [em1, Emit.gameOver room winner])
            else
              match startNextRound room s2 with
              | some (s3, ems) => some (s3, em1 :: ems)
              | none => none
          | _, _ => none
      | _, _ => none
    | _ => none
  else some (s1, [])

/-- `handlePlayerChoice(socket, { username, room, choice }, io)`.  The
round-timeout path calls it with `socket = null`, `username = null`,
`choice = null`. -/
def handlePlayerChoice (socket : Option Nat) (username : Option String) (room : String)
    (choice : Option String) (s : GState) : Option (GState × List Emit) :=
  match lookupKey s.roomStates room with
  | none =>
    match socket with
    | some sid => some (s, [Emit.toSocket sid "exception" "invalid choice or room"])
    | none => none
  | some rs =>
    let proceed : Option RoomState :=
      match username with
      | some u =>
        if u = "" then some rs
        else
          match choice with
          | some c => some { rs with choices := setKey rs.choices u c }
          | none => none
      | none => some rs
    if validChoice choice then
      match proceed with
      | some rs1 =>
        resolveIfReady room rs1 { s with roomStates := setKey s.roomStates room rs1 }
      | none => none
    else
      match socket with
      | some sid => some (s, [Emit.toSocket sid "exception" "invalid choice or room"])
      | none =>
        match proceed with
        | some rs1 =>
          resolveIfReady room rs1 { s with roomStates := setKey s.roomStates room rs1 }
        | none => none

/-- `if (!roomState.choices[p]) roomState.choices[p] = 'rock'` — the only
falsy stored string is the empty string. -/
def injectDefault (choices : List (String × String)) (p : String) : List (String × String) :=
  match lookupKey choices p with
  | some c => if c = "" then setKey choices p "rock" else choices
  | none => setKey choices p "rock"

/-- Body of the round `setTimeout` callback in `startNextRound`.  The
callback's captured `roomState` object coincides with the table entry
whenever the room is still present; the handle is cleared before every
room removal, so a pending fire implies the room exists. -/
def roundTimeoutFire (ROOM_NAME : String) (s : GState) : Option (GState × List Emit) :=
  match lookupKey s.roomStates ROOM_NAME with
  | none => none
  | some rs =>
    match rs.connectedUsers with
    | [p1s, p2s] =>
      let choices1 := injectDefault (injectDefault rs.choices p1s.username) p2s.username
      let s1 := { s with roomStates := setKey s.roomStates ROOM_NAME { rs with choices := choices1 } }
      handlePlayerChoice none none ROOM_NAME none s1
    | _ => none

/-- `markUserForReconnection`: drop the username from the room's slots and
schedule a grace `setTimeout` (which the source can never cancel). -/
def markUserForReconnection (username room : String) (s : GState) : GState :=
  let s1 :=
    match lookupKey s.roomStates room with
    | some rs =>
      let rs1 := { rs with connectedUsers := rs.connectedUsers.filter (fun u => !(u.username == username)) }
      { s with roomStates := setKey s.roomStates room rs1 }
    | none => s
  { s1 with graceTimers := s1.graceTimers ++ [(username, room)] }

/-- `handleDisconnecting`: for each socket.io room of the socket, notify it
and mark the user for reconnection.  This revision does not cancel the
round timer. -/
def handleDisconnecting (sid : Nat) (rooms : List String) (s : GState) : GState × List Emit :=
  rooms.foldl
    (fun acc room =>
      match lookupKey acc.1.connectedUsers sid with
      | some user =>
        (markUserForReconnection user.username room acc.1,
         acc.2 ++ [Emit.toRoom room "room-event:disconnect"
            (user.username ++ " disconnected from " ++ room)])
      | none => acc)
    (s, [])

/-- Body of the reconnection-grace `setTimeout` callback in
`markUserForReconnection`. -/
def graceTimerFire (username room : String) (s : GState) : GState × List Emit :=
  let roomOpt := lookupKey s.roomStates room
  let isUserStillDisconnected :=
    match roomOpt with
    | some rs => !(rs.connectedUsers.any (fun u => u.username == username))
    | none => true
  if isUserStillDisconnected then
    let s1 := { s with connectedUsers := s.connectedUsers.filter (fun p => !(p.2.username == username)) }
    match roomOpt with
    | some rs =>
      let ems :=
        match rs.connectedUsers with
        | w :: _ => [Emit.gameOver room w.username]
        | [] => []
      (cleanupGame room s1, ems)
    | none => (s1, [])
  else (s, [])

/-- The part of `handleConnectToRoom` after the early returns. -/
def connectToRoomCore (sid : Nat) (username room ROOM_NAME : String) (s : GState) :
    Option (GState × List Emit) :=
  let isReconnecting :=
    s.connectedUsers.any (fun p => p.2.username == username && p.2.room == room)
  let es1 : List Emit :=
    if isReconnecting then
      [Emit.toSocket sid "room-event:reconnect" (username ++ " rejoined " ++ ROOM_NAME)]
    else []
  let reg1 :=
    if isReconnecting then
      match s.connectedUsers.find? (fun p => p.2.username == username) with
      | some old => eraseKey s.connectedUsers old.1
      | none => s.connectedUsers
    else s.connectedUsers
  let reg2 := setKey reg1 sid (Conn.mk username room sid)
  let rooms1 :=
    match lookupKey s.roomStates ROOM_NAME with
    | none =>
      setKey s.roomStates ROOM_NAME
        (RoomState.mk [Slot.mk username sid] [(username, 0)] 1 [] false)
    | some rs =>
      setKey s.roomStates ROOM_NAME
        { rs with connectedUsers := rs.connectedUsers ++ [Slot.mk username sid],
                  scores := setKey rs.scores username 0 }
  let s1 : GState := { connectedUsers := reg2, roomStates := rooms1, graceTimers := s.graceTimers }
  let es2 := es1 ++ [Emit.toRoom ROOM_NAME "room-event:join" (username ++ " joined " ++ ROOM_NAME)]
  match lookupKey rooms1 ROOM_NAME with
  | some rs1 =>
    if rs1.connectedUsers.length = 2 then
      match startNextRound ROOM_NAME s1 with
      | some (s2, es3) =>
        some (s2, es2 ++ [Emit.toRoom ROOM_NAME "room-event:ready" "players are ready, waiting for choice"] ++ es3)
      | none => none
    else some (s1, es2)
  | none => none

/-- `handleConnectToRoom(socket, msg, io)` of the lines 215-429 revision:
no room-capacity check exists here. -/
def handleConnectToRoom (sid : Nat) (username room : String) (s : GState) :
    Option (GState × List Emit) :=
  if username = "" ∨ room = "" ∨ room.length ≤ 4 then
    some (s, [Emit.toSocket sid "exception" "invalid room or username"])
  else
    let ROOM_NAME := "room:" ++ room
    match lookupKey s.roomStates ROOM_NAME with
    | some rs =>
      match rs.connectedUsers.head? with
      | some slot0 =>
        if slot0.socketId = sid then some (s, [])
        else connectToRoomCore sid username room ROOM_NAME s
      | none => none
    | none => connectToRoomCore sid username room ROOM_NAME s

/-! ### Event sequences over the lines 215-429 revision -/

/-- Externally triggered transitions: the three inbound transport events,
plus the two timer callbacks. -/
inductive Event where
  | connect (sid : Nat) (username room : String)
  | choice (sid : Nat) (username room choice : String)
  | disconnect (sid : Nat) (rooms : List String)
  | roundFire (room : String)
  | graceFire (username room : String)
deriving DecidableEq, Repr

/-- One transition.  A round timeout only fires while its handle is armed
(a cleared handle never fires), and firing consumes the handle; a grace
timeout only fires if it was scheduled, and firing consumes it. -/
def step : Event → GState → Option (GState × List Emit)
  | Event.connect sid u r, s => handleConnectToRoom sid u r s
  | Event.choice sid u r c, s => handlePlayerChoice (some sid) (some u) r (some c) s
  | Event.disconnect sid rooms, s => some (handleDisconnecting sid rooms s)
  | Event.roundFire r, s =>
    match lookupKey s.roomStates r with
    | some rs =>
      if rs.roundTimeout then
        roundTimeoutFire r { s with roomStates := setKey s.roomStates r { rs with roundTimeout := false } }
      else none
    | none => none
  | Event.graceFire u r, s =>
    if s.graceTimers.contains (u, r) then
      some (graceTimerFire u r { s with graceTimers := s.graceTimers.erase (u, r) })
    else none

def run : List Event → GState → Option (GState × List Emit)
  | [], s => some (s, [])
  | e :: es, s =>
    match step e s with
    | some (s1, out1) =>
      match run es s1 with
      | some (s2, out2) => some (s2, out1 ++ out2)
      | none => none
    | none => none

/-! ### The pause-supporting revision, `src/unnamed/part_000` lines 1-215 -/

namespace V1

/-- Timing constants of the lines 1-215 revision. -/
def CHOICE_TIME : Nat := 1000

def RECONNECTION_TIME : Nat := 20000

/-- `roomStates[ROOM_NAME]` of this revision additionally carries `paused`. -/
structure RoomState where
  connectedUsers : List Slot
  scores : List (String × Nat)
  round : Nat
  choices : List (String × String)
  roundTimeout : Bool
  paused : Bool
deriving DecidableEq, Repr

structure GState where
  connectedUsers : List (Nat × Conn)
  roomStates : List (String × RoomState)
  graceTimers : List (String × String)
deriving DecidableEq, Repr

/-- Outbound events of the lines 1-215 revision; its structured broadcasts
use the labels `room-event:round-result`, `room-event:game-over` and
`room-event:round-timer`. -/
inductive Emit where
  | toSocket (sid : Nat) (event text : String)
  | toRoom (room event text : String)
  | roundResult (room : String) (round : Nat) (choices : List (String × String))
      (result : String) (scores : List (String × Nat))
  | gameOver (room winner : String)
  | roundTimer (room : String) (remainingTime : Int)
deriving DecidableEq, Repr

/-- `cleanupGame` of this revision also evicts the room members' registry
entries before deleting the room. -/
def cleanupGame (ROOM_NAME : String) (s : GState) : GState :=
  match lookupKey s.roomStates ROOM_NAME with
  | some rs =>
    GState.mk
      (rs.connectedUsers.foldl (fun acc u1 => eraseKey acc u1.socketId) s.connectedUsers)
      (eraseKey s.roomStates ROOM_NAME) s.graceTimers
  | none => s

/-- `startNextRound` of this revision: a no-op while paused, otherwise it
restarts the countdown interval; it emits nothing itself (the interval
ticks do). -/
def startNextRound (ROOM_NAME : String) (s : GState) : Option GState :=
  match lookupKey s.roomStates ROOM_NAME with
  | none => none
  | some rs =>
    if rs.paused then some s
    else
      let rs1 := { rs with roundTimeout := true }
      some { s with roomStates := setKey s.roomStates ROOM_NAME rs1 }

/-- Resolution half of this revision's `handlePlayerChoice`. -/
def resolveIfReady (room : String) (rs1 : RoomState) (s1 : GState) :
    Option (GState × List Emit) :=
  if rs1.choices.length = 2 then
    match rs1.connectedUsers with
    | [p1s, p2s] =>
      let player1 := p1s.username
      let player2 := p2s.username
      match lookupKey rs1.choices player1, lookupKey rs1.choices player2 with
      | some c1, some c2 =>
        let result := determineRoundWinner c1 c2
        let scores1 :=
          if result = "player1" then incKey rs1.scores player1
          else if result = "player2" then incKey rs1.scores player2
          else if result = "tie" then (incKey rs1.scores player1).bind (fun m => incKey m player2)
          else some rs1.scores
        match scores1 with
        | none => none
        | some scores2 =>
          let em1 := Emit.roundResult room rs1.round rs1.choices result scores2
          let rs2 := { rs1 with scores := scores2, choices := [], round := rs1.round + 1 }
          let s2 := { s1 with roomStates := setKey s1.roomStates room rs2 }
          match lookupKey scores2 player1, lookupKey scores2 player2 with
          | some a, some b =>
            if a = 5 ∨ b = 5 then
              let winner0 := if a = 5 then player1 else player2
              let winner := if a = b then "tie" else winner0
              some (cleanupGame room s2, [em1, Emit.gameOver room winner])
            else
              match startNextRound room s2 with
              | some s3 => some (s3, [em1])
              | none => none
          | _, _ => none
      | _, _ => none
    | _ => none
  else some (s1, [])

/-- This revision's `handlePlayerChoice`; identical to the other revision
apart from the broadcast labels and the interval-based next round. -/
def handlePlayerChoice (socket : Option Nat) (username : Option String) (room : String)
    (choice : Option String) (s : GState) : Option (GState × List Emit) :=
  match lookupKey s.roomStates room with
  | none =>
    match socket with
    | some sid => some (s, [Emit.toSocket sid "exception" "invalid choice or room"])
    | none => none
  | some rs =>
    let proceed : Option RoomState :=
      match username with
      | some u =>
        if u = "" then some rs
        else
          match choice with
          | some c => some { rs with choices := setKey rs.choices u c }
          | none => none
      | none => some rs
    if validChoice choice then
      match proceed with
      | some rs1 =>
        resolveIfReady room rs1 { s with roomStates := setKey s.roomStates room rs1 }
      | none => none
    else
      match socket with
      | some sid => some (s, [Emit.toSocket sid "exception" "invalid choice or room"])
      | none =>
        match proceed with
        | some rs1 =>
          resolveIfReady room rs1 { s with roomStates := setKey s.roomStates room rs1 }
        | none => none

/-- Body of one tick of this revision's countdown `setInterval`: a strict
no-op while paused; otherwise it announces the remaining time, decrements
it, and on expiry clears the interval, injects the default choices and
enters the shared resolution path. -/
def roundTick (ROOM_NAME : String) (remaining : Int) (s : GState) :
    Option (GState × List Emit × Int) :=
  match lookupKey s.roomStates ROOM_NAME with
  | none => none
  | some rs =>
    if rs.paused then some (s, [], remaining)
    else
      let em := Emit.roundTimer ROOM_NAME remaining
      let remaining1 := remaining - 1
      if remaining1 ≤ 0 then
        match rs.connectedUsers with
        | [p1s, p2s] =>
          let injected := injectDefault (injectDefault rs.choices p1s.username) p2s.username
          let rs1 := { rs with roundTimeout := false, choices := injected }
          let s1 := { s with roomStates := setKey s.roomStates ROOM_NAME rs1 }
          match handlePlayerChoice none none ROOM_NAME none s1 with
          | some (s2, ems2) => some (s2, em :: ems2, remaining1)
          | none => none
        | _ => none
      else some (s, [em], remaining1)

/-- This revision's `markUserForReconnection`. -/
def markUserForReconnection (username room : String) (s : GState) : GState :=
  let s1 :=
    match lookupKey s.roomStates room with
    | some rs =>
      let rs1 := { rs with connectedUsers := rs.connectedUsers.filter (fun u1 => !(u1.username == username)) }
      { s with roomStates := setKey s.roomStates room rs1 }
    | none => s
  { s1 with graceTimers := s1.graceTimers ++ [(username, room)] }

/-- This revision's `handleDisconnecting`: it pauses the room and clears
the round interval before marking the user for reconnection. -/
def handleDisconnecting (sid : Nat) (rooms : List String) (s : GState) : GState × List Emit :=
  rooms.foldl
    (fun acc room =>
      match lookupKey acc.1.connectedUsers sid with
      | some user =>
        let ems := acc.2 ++ [Emit.toRoom room "room-event:disconnect"
          (user.username ++ " disconnected from " ++ room)]
        match lookupKey acc.1.roomStates room with
        | some rs =>
          let rs1 := { rs with paused := true, roundTimeout := false }
          let s1 := { acc.1 with roomStates := setKey acc.1.roomStates room rs1 }
          (markUserForReconnection user.username room s1, ems)
        | none => (acc.1, ems)
      | none => acc)
    (s, [])

end V1

/-! ### The `src/socket.js` variant -/

namespace SJ

/-- Registry entry of `src/socket.js`: `{ username, room }`. -/
structure Entry where
  username : String
  room : String
deriving DecidableEq, Repr

/-- `src/socket.js` only emits plain text events. -/
inductive Emit where
  | toSocket (sid : Nat) (event text : String)
  | toRoom (room event text : String)
deriving DecidableEq, Repr

/-- Module state of `src/socket.js`: a registry plus, per room, the list of
connected socket ids (`connected_users`). -/
structure GState where
  connectedUsers : List (Nat × Entry)
  roomStates : List (String × List Nat)
deriving DecidableEq, Repr

def initState : GState := GState.mk [] []

/-- `handleConnectToRoom` of `src/socket.js`: it rejects an empty username
or short room code, a socket already registered, and a room that already
has at least 2 connected sockets. -/
def handleConnectToRoom (sid : Nat) (username room : String) (s : GState) : GState × List Emit :=
  if username = "" ∨ room.length ≤ 4 then
    (s, [Emit.toSocket sid "exception" "something went wrong"])
  else
    let ROOM_NAME := "room:" ++ room
    match lookupKey s.connectedUsers sid with
    | some _ => (s, [Emit.toSocket sid "exception" "already in a room"])
    | none =>
      let full :=
        match lookupKey s.roomStates ROOM_NAME with
        | some l => decide (2 ≤ l.length)
        | none => false
      if full then (s, [Emit.toSocket sid "exception" "room full"])
      else
        let prev :=
          match lookupKey s.roomStates ROOM_NAME with
          | some l => l
          | none => []
        let l1 := prev ++ [sid]
        let s1 := GState.mk (setKey s.connectedUsers sid (Entry.mk username room))
          (setKey s.roomStates ROOM_NAME l1)
        let ems :=
          [Emit.toRoom ROOM_NAME "room-event:join" (username ++ " joined " ++ ROOM_NAME)]
        (s1, if l1.length = 2 then
          ems ++ [Emit.toRoom ROOM_NAME "room-event:ready" "players are ready, waiting for choice"]
        else ems)

def removeUserFromRoom (sid : Nat) (room : String) (s : GState) : GState :=
  match lookupKey s.roomStates room with
  | some l =>
    let l1 := l.filter (fun i => !(i == sid))
    if l1.length = 0 then { s with roomStates := eraseKey s.roomStates room }
    else { s with roomStates := setKey s.roomStates room l1 }
  | none => s

def handleDisconnecting (sid : Nat) (rooms : List String) (s : GState) : GState × List Emit :=
  let p := rooms.foldl
    (fun acc room =>
      match lookupKey acc.1.connectedUsers sid with
      | some user =>
        (removeUserFromRoom sid room acc.1,
         acc.2 ++ [Emit.toRoom room "room-event:disconnect" (user.username ++ " left " ++ room)])
      | none => acc)
    (s, [])
  ({ p.1 with connectedUsers := eraseKey p.1.connectedUsers sid }, p.2)

inductive Event where
  | connect (sid : Nat) (username room : String)
  | disconnect (sid : Nat) (rooms : List String)
deriving DecidableEq, Repr

def step : Event → GState → GState × List Emit
  | Event.connect sid u r, s => handleConnectToRoom sid u r s
  | Event.disconnect sid rooms, s => handleDisconnecting sid rooms s

def run : List Event → GState → GState × List Emit
  | [], s => (s, [])
  | e :: es, s =>
    let p := step e s
    let q := run es p.1
    (q.1, p.2 ++ q.2)

/-- Every room's `connected_users` list has at most 2 entries. -/
def roomsBounded (s : GState) : Prop :=
  ∀ R l, lookupKey s.roomStates R = some l → l.length ≤ 2

end SJ

/-! ### Association-map facts -/

theorem lookupKey_setKey_self {κ α : Type} [DecidableEq κ] (m : List (κ × α)) (k : κ) (v : α) :
    lookupKey (setKey m k v) k = some v := by
  induction m with
  | nil => simp [setKey, lookupKey]
  | cons p m ih =>
    obtain ⟨k1, v1⟩ := p
    by_cases h : k1 = k
    · simp [setKey, lookupKey, h]
    · simp [setKey, lookupKey, h, ih]

theorem lookupKey_setKey_ne {κ α : Type} [DecidableEq κ] (m : List (κ × α)) (k k1 : κ) (v : α)
    (h : k1 ≠ k) : lookupKey (setKey m k v) k1 = lookupKey m k1 := by
  induction m with
  | nil => simp [setKey, lookupKey, Ne.symm h]
  | cons p m ih =>
    obtain ⟨k2, v2⟩ := p
    by_cases h2 : k2 = k
    · subst h2
      simp [setKey, lookupKey, Ne.symm h]
    · by_cases h3 : k2 = k1 <;> simp [setKey, lookupKey, h2, h3, h, ih]

theorem lookupKey_eraseKey_self {κ α : Type} [DecidableEq κ] (m : List (κ × α)) (k : κ) :
    lookupKey (eraseKey m k) k = none := by
  induction m with
  | nil => simp [eraseKey, lookupKey]
  | cons p m ih =>
    obtain ⟨k1, v1⟩ := p
    by_cases h : k1 = k <;> simp [eraseKey, lookupKey, h, ih]

theorem lookupKey_eraseKey_ne {κ α : Type} [DecidableEq κ] (m : List (κ × α)) (k k1 : κ)
    (h : k1 ≠ k) : lookupKey (eraseKey m k) k1 = lookupKey m k1 := by
  induction m with
  | nil => simp [eraseKey, lookupKey]
  | cons p m ih =>
    obtain ⟨k2, v2⟩ := p
    by_cases h2 : k2 = k
    · subst h2
      simp [eraseKey, lookupKey, Ne.symm h, ih]
    · by_cases h3 : k2 = k1 <;> simp [eraseKey, lookupKey, h2, h3, h, ih]

theorem setKey_setKey_self {κ α : Type} [DecidableEq κ] (m : List (κ × α)) (k : κ) (v w : α) :
    setKey (setKey m k v) k w = setKey m k w := by
  induction m with
  | nil => simp [setKey]
  | cons p m ih =>
    obtain ⟨k1, v1⟩ := p
    by_cases h : k1 = k <;> simp [setKey, h, ih]

theorem eraseKey_setKey_self {κ α : Type} [DecidableEq κ] (m : List (κ × α)) (k : κ) (v : α) :
    eraseKey (setKey m k v) k = eraseKey m k := by
  induction m with
  | nil => simp [setKey, eraseKey]
  | cons p m ih =>
    obtain ⟨k1, v1⟩ := p
    by_cases h : k1 = k <;> simp [setKey, eraseKey, h, ih]

/-! ### C9 and C10: the round resolver -/

/-- C9: over the three valid choices, `determineRoundWinner` awards the
rock side over the scissors side, the scissors side over the paper side,
the paper side over the rock side, and returns a tie exactly when the two
choices are equal. -/
theorem C9_beats_relation :
    determineRoundWinner "rock" "scissors" = "player1" ∧
    determineRoundWinner "scissors" "paper" = "player1" ∧
    determineRoundWinner "paper" "rock" = "player1" ∧
    determineRoundWinner "scissors" "rock" = "player2" ∧
    determineRoundWinner "paper" "scissors" = "player2" ∧
    determineRoundWinner "rock" "paper" = "player2" ∧
    ∀ a b : String, a ∈ ["rock", "paper", "scissors"] → b ∈ ["rock", "paper", "scissors"] →
      (determineRoundWinner a b = "tie" ↔ a = b) := by
  refine ⟨by decide, by decide, by decide, by decide, by decide, by decide, ?_⟩
  intro a b ha hb
  fin_cases ha <;> fin_cases hb <;> decide

/-- Witness for C9 at the concrete pair rock/rock. -/
theorem C9_beats_relation_witness :
    "rock" ∈ ["rock", "paper", "scissors"] ∧
      (determineRoundWinner "rock" "rock" = "tie" ↔ "rock" = "rock") :=
  ⟨by decide, C9_beats_relation.2.2.2.2.2.2 "rock" "rock" (by decide) (by decide)⟩

theorem determineRoundWinner_eq_tie_iff (a b : String) :
    determineRoundWinner a b = "tie" ↔ a = b := by
  unfold determineRoundWinner
  by_cases h : a = b
  · simp [h]
  · by_cases h2 : winMap a = some b <;> simp [h, h2]

theorem determineRoundWinner_mem (a b : String) :
    determineRoundWinner a b = "player1" ∨ determineRoundWinner a b = "player2" ∨
      determineRoundWinner a b = "tie" := by
  unfold determineRoundWinner
  by_cases h : a = b
  · simp [h]
  · by_cases h2 : winMap a = some b <;> simp [h, h2]

/-- C10: the resolver is total on arbitrary strings, returns a tie exactly
on equal inputs, and otherwise awards one of the two sides. -/
theorem C10_resolver_total_tie_iff_eq :
    ∀ a b : String,
      (determineRoundWinner a b = "tie" ↔ a = b) ∧
      (determineRoundWinner a b = "player1" ∨ determineRoundWinner a b = "player2" ∨
        determineRoundWinner a b = "tie") :=
  fun a b => ⟨determineRoundWinner_eq_tie_iff a b, determineRoundWinner_mem a b⟩

/-! ### C1: the rock-beats-scissors scenario -/

/-- C1: after alice and bob join room "abcde" and submit rock and scissors
for round 1, the room broadcast contains the round-1 round-result with
result `player1` — whose seat, per the final slot list, is alice — and
scores alice 1, bob 0; no `exception` is emitted to anyone at any point. -/
theorem C1_rock_beats_scissors_scenario :
    run [Event.connect 1 "alice" "abcde", Event.connect 2 "bob" "abcde",
         Event.choice 1 "alice" "room:abcde" "rock", Event.choice 2 "bob" "room:abcde" "scissors"]
        initState =
      some
        (GState.mk
          [(1, Conn.mk "alice" "abcde" 1), (2, Conn.mk "bob" "abcde" 2)]
          [("room:abcde",
            RoomState.mk [Slot.mk "alice" 1, Slot.mk "bob" 2] [("alice", 1), ("bob", 0)] 2 [] true)]
          [],
         [Emit.toRoom "room:abcde" "room-event:join" "alice joined room:abcde",
          Emit.toRoom "room:abcde" "room-event:join" "bob joined room:abcde",
          Emit.toRoom "room:abcde" "room-event:ready" "players are ready, waiting for choice",
          Emit.startRound "room:abcde" 1 20,
          Emit.roundResult "room:abcde" 1 [("alice", "rock"), ("bob", "scissors")] "player1"
            [("alice", 1), ("bob", 0)],
          Emit.startRound "room:abcde" 2 20]) := by
  decide

/-! ### Counterexamples found while checking C2, C5, C6 and C8 -/

/-- Counterexample to C2 on the lines 215-429 revision: a third join under
the fresh username carol to a room already seating alice and bob is
admitted — the slot list reaches length 3 — and no socket-directed
emission (in particular no `exception`) is sent at any point. -/
theorem C2_third_join_admitted :
    (run [Event.connect 1 "alice" "abcde", Event.connect 2 "bob" "abcde",
          Event.connect 3 "carol" "abcde"] initState).map
        (fun p =>
          ((lookupKey p.1.roomStates "room:abcde").map (fun rs => rs.connectedUsers.length),
           p.2.filter (fun e => match e with | Emit.toSocket _ _ _ => true | _ => false))) =
      some (some 3, []) := by
  decide

/-- Counterexample to C5: alice wins round 1 (score 1), disconnects, and
rejoins under socket 3; the reconnection join resets her scoreboard entry
from 1 to 0. -/
theorem C5_reconnect_resets_score :
    ((run [Event.connect 1 "alice" "abcde", Event.connect 2 "bob" "abcde",
           Event.choice 1 "alice" "room:abcde" "rock", Event.choice 2 "bob" "room:abcde" "scissors"]
          initState).map
        (fun p => (lookupKey p.1.roomStates "room:abcde").map (fun rs => lookupKey rs.scores "alice"))
      = some (some (some 1))) ∧
    ((run [Event.connect 1 "alice" "abcde", Event.connect 2 "bob" "abcde",
           Event.choice 1 "alice" "room:abcde" "rock", Event.choice 2 "bob" "room:abcde" "scissors",
           Event.disconnect 1 ["room:abcde"], Event.connect 3 "alice" "abcde"]
          initState).map
        (fun p => (lookupKey p.1.roomStates "room:abcde").map (fun rs => lookupKey rs.scores "alice"))
      = some (some (some 0))) :=
  ⟨by decide, by decide⟩

/-- Counterexample to C6 on the lines 383-394 disconnect handler: after bob
disconnects mid-round, the reconnection grace for bob is scheduled while
the room's round timeout is still armed — the handler cancelled nothing. -/
theorem C6_round_timer_not_cancelled :
    (run [Event.connect 1 "alice" "abcde", Event.connect 2 "bob" "abcde",
          Event.disconnect 2 ["room:abcde"]] initState).map
        (fun p =>
          ((lookupKey p.1.roomStates "room:abcde").map (fun rs => rs.roundTimeout),
           p.1.graceTimers)) =
      some (some true, [("bob", "room:abcde")]) := by
  decide

/-- Counterexample to C8: bob disconnects and reconnects, the game is then
played to a 5-5 tie, game-over is broadcast and the room is torn down
(`roomStates` is empty), with bob's registry entry still present; the grace
timer scheduled at bob's disconnect — which teardown could not cancel —
then fires and purges bob's registry entry: an observable post-teardown
effect on the registry. -/
theorem C8_stale_grace_purges_registry :
    ((run [Event.connect 1 "alice" "abcde", Event.connect 2 "bob" "abcde",
           Event.disconnect 2 ["room:abcde"], Event.connect 3 "bob" "abcde",
           Event.choice 1 "alice" "room:abcde" "rock", Event.choice 3 "bob" "room:abcde" "rock",
           Event.choice 1 "alice" "room:abcde" "rock", Event.choice 3 "bob" "room:abcde" "rock",
           Event.choice 1 "alice" "room:abcde" "rock", Event.choice 3 "bob" "room:abcde" "rock",
           Event.choice 1 "alice" "room:abcde" "rock", Event.choice 3 "bob" "room:abcde" "rock",
           Event.choice 1 "alice" "room:abcde" "rock", Event.choice 3 "bob" "room:abcde" "rock"]
          initState).map
        (fun p => (p.1.roomStates, p.1.connectedUsers, p.1.graceTimers)) =
      some ([], [(1, Conn.mk "alice" "abcde" 1), (3, Conn.mk "bob" "abcde" 3)],
        [("bob", "room:abcde")])) ∧
    ((run [Event.connect 1 "alice" "abcde", Event.connect 2 "bob" "abcde",
           Event.disconnect 2 ["room:abcde"], Event.connect 3 "bob" "abcde",
           Event.choice 1 "alice" "room:abcde" "rock", Event.choice 3 "bob" "room:abcde" "rock",
           Event.choice 1 "alice" "room:abcde" "rock", Event.choice 3 "bob" "room:abcde" "rock",
           Event.choice 1 "alice" "room:abcde" "rock", Event.choice 3 "bob" "room:abcde" "rock",
           Event.choice 1 "alice" "room:abcde" "rock", Event.choice 3 "bob" "room:abcde" "rock",
           Event.choice 1 "alice" "room:abcde" "rock", Event.choice 3 "bob" "room:abcde" "rock",
           Event.graceFire "bob" "room:abcde"]
          initState).map
        (fun p => (p.1.roomStates, p.1.connectedUsers)) =
      some ([], [(1, Conn.mk "alice" "abcde" 1)])) :=
  ⟨by decide, by decide⟩

/-! ### C3: the round-timeout path -/

theorem injectDefault_lookup_missing (m : List (String × String)) (p : String)
    (h : lookupKey m p = none) : lookupKey (injectDefault m p) p = some "rock" := by
  simp [injectDefault, h, lookupKey_setKey_self]

theorem injectDefault_lookup_present (m : List (String × String)) (p : String) (c : String)
    (h : lookupKey m p = some c) (hc : c ≠ "") : lookupKey (injectDefault m p) p = some c := by
  simp [injectDefault, h, hc]

theorem injectDefault_lookup_other (m : List (String × String)) (p q : String)
    (h : q ≠ p) : lookupKey (injectDefault m p) q = lookupKey m q := by
  unfold injectDefault
  cases h2 : lookupKey m p with
  | none => simp [lookupKey_setKey_ne m p q _ h]
  | some c =>
    by_cases hc : c = "" <;> simp [hc, lookupKey_setKey_ne m p q _ h]

/-- C3: the round `setTimeout` body is literally the shared
`handlePlayerChoice` resolution path applied to the state whose pending
choices got the default "rock" injected; after injection each seated
username missing a pending choice has "rock", a recorded non-empty choice
is preserved; and in the concrete scenario where alice submitted "rock"
and bob nothing, firing the timer resolves round 1 as rock versus rock, a
tie, with both scores moving 0 to 1. -/
theorem C3_timeout_default_rock :
    (∀ (s : GState) (R : String) (rs : RoomState) (p1 p2 : Slot),
        lookupKey s.roomStates R = some rs →
        rs.connectedUsers = [p1, p2] →
        (roundTimeoutFire R s =
          handlePlayerChoice none none R none
            (GState.mk s.connectedUsers
              (setKey s.roomStates R
                (RoomState.mk rs.connectedUsers rs.scores rs.round
                  (injectDefault (injectDefault rs.choices p1.username) p2.username)
                  rs.roundTimeout))
              s.graceTimers)) ∧
        (∀ q : Slot, (q = p1 ∨ q = p2) → lookupKey rs.choices q.username = none →
            lookupKey (injectDefault (injectDefault rs.choices p1.username) p2.username) q.username
              = some "rock") ∧
        (∀ (q : Slot) (c : String), (q = p1 ∨ q = p2) → lookupKey rs.choices q.username = some c →
            c ≠ "" →
            lookupKey (injectDefault (injectDefault rs.choices p1.username) p2.username) q.username
              = some c)) ∧
    run [Event.connect 1 "alice" "abcde", Event.connect 2 "bob" "abcde",
         Event.choice 1 "alice" "room:abcde" "rock", Event.roundFire "room:abcde"] initState =
      some
        (GState.mk
          [(1, Conn.mk "alice" "abcde" 1), (2, Conn.mk "bob" "abcde" 2)]
          [("room:abcde",
            RoomState.mk [Slot.mk "alice" 1, Slot.mk "bob" 2] [("alice", 1), ("bob", 1)] 2 [] true)]
          [],
         [Emit.toRoom "room:abcde" "room-event:join" "alice joined room:abcde",
          Emit.toRoom "room:abcde" "room-event:join" "bob joined room:abcde",
          Emit.toRoom "room:abcde" "room-event:ready" "players are ready, waiting for choice",
          Emit.startRound "room:abcde" 1 20,
          Emit.roundResult "room:abcde" 1 [("alice", "rock"), ("bob", "rock")] "tie"
            [("alice", 1), ("bob", 1)],
          Emit.startRound "room:abcde" 2 20]) := by
  constructor
  · intro s R rs p1 p2 hroom hslots
    refine ⟨by simp [roundTimeoutFire, hroom, hslots], ?_, ?_⟩
    · intro q hq hmiss
      rcases hq with rfl | rfl
      · by_cases h12 : p2.username = q.username
        · rw [h12]
          exact injectDefault_lookup_present _ _ "rock"
            (injectDefault_lookup_missing _ _ hmiss) (by decide)
        · rw [injectDefault_lookup_other _ _ _ (Ne.symm h12),
            injectDefault_lookup_missing _ _ hmiss]
      · by_cases h12 : q.username = p1.username
        · rw [injectDefault_lookup_present _ _ "rock"
            (by rw [h12]; exact injectDefault_lookup_missing _ _ (h12 ▸ hmiss)) (by decide)]
        · rw [injectDefault_lookup_missing _ _
            (by rw [injectDefault_lookup_other _ _ _ h12]; exact hmiss)]
    · intro q c hq hpres hc
      rcases hq with rfl | rfl
      · by_cases h12 : p2.username = q.username
        · rw [h12]
          exact injectDefault_lookup_present _ _ c
            (injectDefault_lookup_present _ _ c hpres hc) hc
        · rw [injectDefault_lookup_other _ _ _ (Ne.symm h12),
            injectDefault_lookup_present _ _ c hpres hc]
      · by_cases h12 : q.username = p1.username
        · rw [injectDefault_lookup_present _ _ c
            (by rw [h12]; exact injectDefault_lookup_present _ _ c (h12 ▸ hpres) hc) hc]
        · rw [injectDefault_lookup_present _ _ c
            (by rw [injectDefault_lookup_other _ _ _ h12]; exact hpres) hc]
  · decide

/-- Witness for C3: the timeout body on the concrete mid-round state (alice
submitted "rock", bob nothing) equals the shared resolution path on the
state with "rock" injected for bob. -/
theorem C3_timeout_default_rock_witness :
    roundTimeoutFire "room:abcde"
        (GState.mk
          [(1, Conn.mk "alice" "abcde" 1), (2, Conn.mk "bob" "abcde" 2)]
          [("room:abcde",
            RoomState.mk [Slot.mk "alice" 1, Slot.mk "bob" 2] [("alice", 0), ("bob", 0)] 1
              [("alice", "rock")] false)]
          []) =
      handlePlayerChoice none none "room:abcde" none
        (GState.mk
          [(1, Conn.mk "alice" "abcde" 1), (2, Conn.mk "bob" "abcde" 2)]
          [("room:abcde",
            RoomState.mk [Slot.mk "alice" 1, Slot.mk "bob" 2] [("alice", 0), ("bob", 0)] 1
              [("alice", "rock"), ("bob", "rock")] false)]
          []) :=
  (C3_timeout_default_rock.1
      (GState.mk
        [(1, Conn.mk "alice" "abcde" 1), (2, Conn.mk "bob" "abcde" 2)]
        [("room:abcde",
          RoomState.mk [Slot.mk "alice" 1, Slot.mk "bob" 2] [("alice", 0), ("bob", 0)] 1
            [("alice", "rock")] false)]
        [])
      "room:abcde"
      (RoomState.mk [Slot.mk "alice" 1, Slot.mk "bob" 2] [("alice", 0), ("bob", 0)] 1
        [("alice", "rock")] false)
      (Slot.mk "alice" 1) (Slot.mk "bob" 2) (by decide) (by decide)).1

/-! ### C4: the termination check after a resolution -/

/-- C4: in a two-player room (alice seated first, bob second, alice's
round-`r` choice `c1` already recorded) with arbitrary scores `a` and `b`,
bob's submission `c2` resolves the round; writing `a1`, `b1` for the
updated scores, the game ends with winner alice exactly when `a1 = 5` and
`b1 ≠ 5`, with winner bob when `b1 = 5` and `a1 ≠ 5`, and — both-at-5
taking precedence — with overall "tie" when `a1 = 5` and `b1 = 5`; when
neither updated score is 5 no game-over is emitted and the next round
starts. -/
theorem C4_termination_check
    (s : GState) (R : String) (a b r : Nat) (c1 c2 : String) (armed : Bool)
    (hc1 : c1 ∈ ["rock", "paper", "scissors"]) (hc2 : c2 ∈ ["rock", "paper", "scissors"])
    (hroom : lookupKey s.roomStates R =
      some (RoomState.mk [Slot.mk "alice" 1, Slot.mk "bob" 2]
        [("alice", a), ("bob", b)] r [("alice", c1)] armed)) :
    handlePlayerChoice (some 2) (some "bob") R (some c2) s =
      (let result := determineRoundWinner c1 c2
       let a1 := if result = "player1" ∨ result = "tie" then a + 1 else a
       let b1 := if result = "player2" ∨ result = "tie" then b + 1 else b
       if a1 = 5 ∨ b1 = 5 then
         some (GState.mk s.connectedUsers (eraseKey s.roomStates R) s.graceTimers,
           [Emit.roundResult R r [("alice", c1), ("bob", c2)] result [("alice", a1), ("bob", b1)],
            Emit.gameOver R (if a1 = 5 ∧ b1 = 5 then "tie" else if a1 = 5 then "alice" else "bob")])
       else
         some (GState.mk s.connectedUsers
             (setKey s.roomStates R
               (RoomState.mk [Slot.mk "alice" 1, Slot.mk "bob" 2] [("alice", a1), ("bob", b1)]
                 (r + 1) [] true))
             s.graceTimers,
           [Emit.roundResult R r [("alice", c1), ("bob", c2)] result [("alice", a1), ("bob", b1)],
            Emit.startRound R (r + 1) 20])) := by
  have hvc : validChoice (some c2) = true := by
    fin_cases hc2 <;> decide
  have h1 : handlePlayerChoice (some 2) (some "bob") R (some c2) s =
      resolveIfReady R
        (RoomState.mk [Slot.mk "alice" 1, Slot.mk "bob" 2]
          [("alice", a), ("bob", b)] r [("alice", c1), ("bob", c2)] armed)
        (GState.mk s.connectedUsers
          (setKey s.roomStates R
            (RoomState.mk [Slot.mk "alice" 1, Slot.mk "bob" 2]
              [("alice", a), ("bob", b)] r [("alice", c1), ("bob", c2)] armed))
          s.graceTimers) := by
    simp [handlePlayerChoice, hroom, hvc, setKey]
  rw [h1]
  rcases determineRoundWinner_mem c1 c2 with hres | hres | hres <;>
    simp [resolveIfReady, incKey, lookupKey, setKey, hres, cleanupGame, startNextRound,
      lookupKey_setKey_self, setKey_setKey_self, eraseKey_setKey_self, CHOICE_TIME] <;>
    split_ifs <;> first | rfl | omega

/-- Witness for C4 at scores 4-0: alice's rock beats bob's scissors,
her updated score is 5, bob's is 0, and the game ends with winner alice. -/
theorem C4_termination_check_witness :
    handlePlayerChoice (some 2) (some "bob") "room:abcde" (some "scissors")
        (GState.mk
          [(1, Conn.mk "alice" "abcde" 1), (2, Conn.mk "bob" "abcde" 2)]
          [("room:abcde",
            RoomState.mk [Slot.mk "alice" 1, Slot.mk "bob" 2] [("alice", 4), ("bob", 0)] 9
              [("alice", "rock")] true)]
          []) =
      some (GState.mk
          [(1, Conn.mk "alice" "abcde" 1), (2, Conn.mk "bob" "abcde" 2)] [] [],
        [Emit.roundResult "room:abcde" 9 [("alice", "rock"), ("bob", "scissors")] "player1"
            [("alice", 5), ("bob", 0)],
         Emit.gameOver "room:abcde" "alice"]) :=
  C4_termination_check
    (GState.mk
      [(1, Conn.mk "alice" "abcde" 1), (2, Conn.mk "bob" "abcde" 2)]
      [("room:abcde",
        RoomState.mk [Slot.mk "alice" 1, Slot.mk "bob" 2] [("alice", 4), ("bob", 0)] 9
          [("alice", "rock")] true)]
      [])
    "room:abcde" 4 0 9 "rock" "scissors" true (by decide) (by decide) (by decide)

/-! ### C7: grace-timer expiry; C8: teardown -/

theorem graceTimerFire_room_absent (u R : String) (s : GState)
    (h : lookupKey s.roomStates R = none) :
    graceTimerFire u R s
      = ({ s with connectedUsers := s.connectedUsers.filter (fun p => !(p.2.username == u)) }, []) := by
  simp [graceTimerFire, h]

/-- C7: when the grace timer for (username, room) fires: if the username is
back in the room's slots the firing is a strict no-op; if it is absent, all
registry entries for that username are purged, the head remaining slot
holder (if any) is declared winner via a game-over broadcast, and the room
is removed (teardown ran); if the room is already gone, only the registry
purge happens and nothing is broadcast. -/
theorem C7_grace_expiry (s : GState) (u R : String) :
    (∀ rs, lookupKey s.roomStates R = some rs →
        rs.connectedUsers.any (fun q => q.username == u) = true →
        graceTimerFire u R s = (s, [])) ∧
    (∀ rs, lookupKey s.roomStates R = some rs →
        rs.connectedUsers.any (fun q => q.username == u) = false →
        (graceTimerFire u R s).1.connectedUsers
            = s.connectedUsers.filter (fun p => !(p.2.username == u)) ∧
        lookupKey (graceTimerFire u R s).1.roomStates R = none ∧
        (graceTimerFire u R s).2
            = (match rs.connectedUsers with
               | w :: _ => [Emit.gameOver R w.username]
               | [] => [])) ∧
    (lookupKey s.roomStates R = none →
        graceTimerFire u R s
          = ({ s with connectedUsers := s.connectedUsers.filter (fun p => !(p.2.username == u)) }, [])) := by
  refine ⟨?_, ?_, ?_⟩
  · intro rs h ha
    simp [graceTimerFire, h, ha]
  · intro rs h ha
    have hclean : lookupKey
        ({ s with connectedUsers := s.connectedUsers.filter (fun p => !(p.2.username == u))} : GState).roomStates R
        = some rs := h
    refine ⟨?_, ?_, ?_⟩
    · simp [graceTimerFire, h, ha, cleanupGame, hclean]
    · simp [graceTimerFire, h, ha, cleanupGame, hclean, lookupKey_eraseKey_self]
    · simp [graceTimerFire, h, ha]
  · intro h
    exact graceTimerFire_room_absent u R s h

/-- Witness for C7: bob's grace expires on a room whose only remaining
slot holder is alice; bob's registry entry is purged, alice is declared
winner, the room is gone. -/
theorem C7_grace_expiry_witness :
    (graceTimerFire "bob" "room:abcde"
        (GState.mk [(2, Conn.mk "bob" "abcde" 2)]
          [("room:abcde", RoomState.mk [Slot.mk "alice" 1] [("alice", 0), ("bob", 0)] 1 [] true)]
          [("bob", "room:abcde")])).1.connectedUsers = [] ∧
    lookupKey (graceTimerFire "bob" "room:abcde"
        (GState.mk [(2, Conn.mk "bob" "abcde" 2)]
          [("room:abcde", RoomState.mk [Slot.mk "alice" 1] [("alice", 0), ("bob", 0)] 1 [] true)]
          [("bob", "room:abcde")])).1.roomStates "room:abcde" = none ∧
    (graceTimerFire "bob" "room:abcde"
        (GState.mk [(2, Conn.mk "bob" "abcde" 2)]
          [("room:abcde", RoomState.mk [Slot.mk "alice" 1] [("alice", 0), ("bob", 0)] 1 [] true)]
          [("bob", "room:abcde")])).2 = [Emit.gameOver "room:abcde" "alice"] :=
  (C7_grace_expiry
      (GState.mk [(2, Conn.mk "bob" "abcde" 2)]
        [("room:abcde", RoomState.mk [Slot.mk "alice" 1] [("alice", 0), ("bob", 0)] 1 [] true)]
        [("bob", "room:abcde")])
      "bob" "room:abcde").2.1
    (RoomState.mk [Slot.mk "alice" 1] [("alice", 0), ("bob", 0)] 1 [] true)
    (by decide) (by decide)

/-- C8 as amended: teardown removes the room, leaves the round timer
impossible to fire (the room carrying its armed handle is gone), is
idempotent, and does not touch the scheduled grace timers; a grace timer
firing after teardown broadcasts nothing and leaves the room table alone,
but still purges every registry entry for its username. -/
theorem C8_teardown_effects :
    (∀ (s : GState) (R : String), lookupKey (cleanupGame R s).roomStates R = none) ∧
    (∀ (s : GState) (R : String), cleanupGame R (cleanupGame R s) = cleanupGame R s) ∧
    (∀ (s : GState) (R : String), (cleanupGame R s).graceTimers = s.graceTimers) ∧
    (∀ (s : GState) (u R : String), lookupKey s.roomStates R = none →
        graceTimerFire u R s
          = ({ s with connectedUsers := s.connectedUsers.filter (fun p => !(p.2.username == u)) }, [])) := by
  refine ⟨?_, ?_, ?_, ?_⟩
  · intro s R
    unfold cleanupGame
    cases h : lookupKey s.roomStates R <;> simp [h, lookupKey_eraseKey_self]
  · intro s R
    unfold cleanupGame
    cases h : lookupKey s.roomStates R with
    | none => simp [h]
    | some rs => simp [h, lookupKey_eraseKey_self]
  · intro s R
    unfold cleanupGame
    cases h : lookupKey s.roomStates R <;> simp [h]
  · intro s u R h
    exact graceTimerFire_room_absent u R s h

/-- Witness for C8: a fire of bob's grace timer against a state whose room
table no longer holds the room purges bob's registry entry and emits
nothing. -/
theorem C8_teardown_effects_witness :
    graceTimerFire "bob" "room:abcde"
        (GState.mk [(3, Conn.mk "bob" "abcde" 3)] [] [("bob", "room:abcde")])
      = (GState.mk [] [] [("bob", "room:abcde")], []) :=
  C8_teardown_effects.2.2.2
    (GState.mk [(3, Conn.mk "bob" "abcde" 3)] [] [("bob", "room:abcde")])
    "bob" "room:abcde" (by decide)

/-! ### C5: the reconnection join -/

/-- C5 as amended: on a reconnection join (the joining username has a
registry entry bound to the same room under a different, older connection
id, and currently holds no slot), the old registry entry is removed and
replaced by one for the new connection id (all other registry entries kept),
a slot carrying the new connection id is appended for that username, the
reconnect notice goes to the joiner, and every scoreboard entry other than
the reconnecting player's is unchanged — but the reconnecting player's own
scoreboard entry is reset to 0 rather than left untouched. -/
theorem C5_reconnect_effects
    (s : GState) (sid oldSid : Nat) (u room : String) (w : Slot) (rs : RoomState)
    (hu : u ≠ "") (hr : room ≠ "") (hlen : ¬ room.length ≤ 4)
    (hroom : lookupKey s.roomStates ("room:" ++ room) = some rs)
    (hhead : rs.connectedUsers.head? = some w) (hwsid : w.socketId ≠ sid)
    (hfind : s.connectedUsers.find? (fun p => p.2.username == u)
      = some (oldSid, Conn.mk u room oldSid))
    (hold : oldSid ≠ sid)
    (hnoslot : rs.connectedUsers.all (fun q => !(q.username == u)) = true) :
    ∃ s1 out, handleConnectToRoom sid u room s = some (s1, out) ∧
      lookupKey s1.connectedUsers oldSid = none ∧
      lookupKey s1.connectedUsers sid = some (Conn.mk u room sid) ∧
      (∀ i, i ≠ oldSid → i ≠ sid → lookupKey s1.connectedUsers i = lookupKey s.connectedUsers i) ∧
      (∃ rs1, lookupKey s1.roomStates ("room:" ++ room) = some rs1 ∧
        rs1.connectedUsers = rs.connectedUsers ++ [Slot.mk u sid] ∧
        rs1.connectedUsers.filter (fun q => q.username == u) = [Slot.mk u sid] ∧
        lookupKey rs1.scores u = some 0 ∧
        (∀ v, v ≠ u → lookupKey rs1.scores v = lookupKey rs.scores v)) ∧
      Emit.toSocket sid "room-event:reconnect" (u ++ " rejoined " ++ ("room:" ++ room)) ∈ out := by
  have hrecon : s.connectedUsers.any (fun p => p.2.username == u && p.2.room == room) = true := by
    refine List.any_eq_true.mpr
      ⟨(oldSid, Conn.mk u room oldSid), List.mem_of_find?_eq_some hfind, ?_⟩
    simp
  have hfilter : rs.connectedUsers.filter (fun q => q.username == u) = [] := by
    rw [List.filter_eq_nil_iff]
    intro q hq
    simpa using List.all_eq_true.mp hnoslot q hq
  have hval : ¬(u = "" ∨ room = "" ∨ room.length ≤ 4) := by
    simp [hu, hr, hlen]
  simp only [handleConnectToRoom, if_neg hval, hroom, hhead, if_neg hwsid,
    connectToRoomCore, hrecon, hfind, if_true, lookupKey_setKey_self]
  have hreg1 : lookupKey (setKey (eraseKey s.connectedUsers oldSid) sid (Conn.mk u room sid)) oldSid
      = none := by
    rw [lookupKey_setKey_ne _ _ _ _ hold, lookupKey_eraseKey_self]
  have hreg2 : lookupKey (setKey (eraseKey s.connectedUsers oldSid) sid (Conn.mk u room sid)) sid
      = some (Conn.mk u room sid) := lookupKey_setKey_self _ _ _
  have hreg3 : ∀ i, i ≠ oldSid → i ≠ sid →
      lookupKey (setKey (eraseKey s.connectedUsers oldSid) sid (Conn.mk u room sid)) i
        = lookupKey s.connectedUsers i := fun i h1 h2 => by
    rw [lookupKey_setKey_ne _ _ _ _ h2, lookupKey_eraseKey_ne _ _ _ h1]
  have hfilter2 : (rs.connectedUsers ++ [Slot.mk u sid]).filter (fun q => q.username == u)
      = [Slot.mk u sid] := by
    rw [List.filter_append, hfilter]
    simp
  by_cases hlen2 : (rs.connectedUsers ++ [Slot.mk u sid]).length = 2
  · rw [if_pos hlen2]
    simp only [startNextRound, lookupKey_setKey_self, setKey_setKey_self]
    refine ⟨_, _, rfl, hreg1, hreg2, hreg3, ⟨_, lookupKey_setKey_self _ _ _, rfl, hfilter2,
      lookupKey_setKey_self _ _ _, fun v hv => lookupKey_setKey_ne _ _ _ _ hv⟩, by simp⟩
  · rw [if_neg hlen2]
    refine ⟨_, _, rfl, hreg1, hreg2, hreg3, ⟨_, lookupKey_setKey_self _ _ _, rfl, hfilter2,
      lookupKey_setKey_self _ _ _, fun v hv => lookupKey_setKey_ne _ _ _ _ hv⟩, by simp⟩

/-- Witness for C5: alice (score 1, seat vacated by her disconnect)
rejoins "abcde" from socket 3 while her stale registry entry sits at
socket 1. -/
theorem C5_reconnect_effects_witness :
    ∃ s1 out,
      handleConnectToRoom 3 "alice" "abcde"
          (GState.mk [(1, Conn.mk "alice" "abcde" 1), (2, Conn.mk "bob" "abcde" 2)]
            [("room:abcde", RoomState.mk [Slot.mk "bob" 2] [("alice", 1), ("bob", 0)] 2 [] true)]
            [("alice", "room:abcde")]) = some (s1, out) ∧
      lookupKey s1.connectedUsers 1 = none ∧
      lookupKey s1.connectedUsers 3 = some (Conn.mk "alice" "abcde" 3) ∧
      (∀ i, i ≠ 1 → i ≠ 3 → lookupKey s1.connectedUsers i =
        lookupKey (GState.mk [(1, Conn.mk "alice" "abcde" 1), (2, Conn.mk "bob" "abcde" 2)]
            [("room:abcde", RoomState.mk [Slot.mk "bob" 2] [("alice", 1), ("bob", 0)] 2 [] true)]
            [("alice", "room:abcde")]).connectedUsers i) ∧
      (∃ rs1, lookupKey s1.roomStates ("room:" ++ "abcde") = some rs1 ∧
        rs1.connectedUsers = [Slot.mk "bob" 2] ++ [Slot.mk "alice" 3] ∧
        rs1.connectedUsers.filter (fun q => q.username == "alice") = [Slot.mk "alice" 3] ∧
        lookupKey rs1.scores "alice" = some 0 ∧
        (∀ v, v ≠ "alice" → lookupKey rs1.scores v =
          lookupKey [("alice", 1), ("bob", 0)] v)) ∧
      Emit.toSocket 3 "room-event:reconnect" ("alice" ++ " rejoined " ++ ("room:" ++ "abcde")) ∈ out :=
  C5_reconnect_effects
    (GState.mk [(1, Conn.mk "alice" "abcde" 1), (2, Conn.mk "bob" "abcde" 2)]
      [("room:abcde", RoomState.mk [Slot.mk "bob" 2] [("alice", 1), ("bob", 0)] 2 [] true)]
      [("alice", "room:abcde")])
    3 1 "alice" "abcde" (Slot.mk "bob" 2)
    (RoomState.mk [Slot.mk "bob" 2] [("alice", 1), ("bob", 0)] 2 [] true)
    (by decide) (by decide) (by decide) (by decide) (by decide) (by decide) (by decide)
    (by decide) (by decide)

/-! ### C6: disconnect versus the round timer -/

/-- C6 as amended: in the pause-supporting revision (part_000 lines
160-175) the disconnect handler marks the room paused and clears its round
interval before scheduling the reconnection grace, and a countdown tick on
a paused room changes nothing and emits nothing — so no round-deadline
expiry (default-choice injection or resolution) takes effect while the
player is unreachable.  The lines 383-394 revision's disconnect handler
does not cancel the round timer (see the counterexample). -/
theorem C6_pause_variant_cancels
    (s : V1.GState) (sid : Nat) (R : String) (user : Conn) (rs : V1.RoomState)
    (hreg : lookupKey s.connectedUsers sid = some user)
    (hroom : lookupKey s.roomStates R = some rs) :
    (∃ rs1, lookupKey (V1.handleDisconnecting sid [R] s).1.roomStates R = some rs1 ∧
        rs1.paused = true ∧ rs1.roundTimeout = false) ∧
    (V1.handleDisconnecting sid [R] s).1.graceTimers = s.graceTimers ++ [(user.username, R)] ∧
    (∀ (s2 : V1.GState) (rs2 : V1.RoomState) (rem : Int),
        lookupKey s2.roomStates R = some rs2 → rs2.paused = true →
        V1.roundTick R rem s2 = some (s2, [], rem)) := by
  refine ⟨?_, ?_, ?_⟩
  · simp only [V1.handleDisconnecting, List.foldl, hreg, hroom, V1.markUserForReconnection,
      lookupKey_setKey_self, setKey_setKey_self]
    exact ⟨_, rfl, rfl, rfl⟩
  · simp only [V1.handleDisconnecting, List.foldl, hreg, hroom, V1.markUserForReconnection,
      lookupKey_setKey_self, setKey_setKey_self]
  · intro s2 rs2 rem h hp
    simp [V1.roundTick, h, hp]

/-- Witness for C6: bob disconnects mid round 1; the room ends up paused
with its interval cleared, bob's grace is scheduled, and a tick on the
paused room is a no-op. -/
theorem C6_pause_variant_cancels_witness :
    (∃ rs1, lookupKey (V1.handleDisconnecting 2 ["room:abcde"]
        (V1.GState.mk [(2, Conn.mk "bob" "abcde" 2)]
          [("room:abcde", V1.RoomState.mk [Slot.mk "alice" 1, Slot.mk "bob" 2]
            [("alice", 0), ("bob", 0)] 1 [] true false)]
          [])).1.roomStates "room:abcde" = some rs1 ∧
        rs1.paused = true ∧ rs1.roundTimeout = false) ∧
    (V1.handleDisconnecting 2 ["room:abcde"]
        (V1.GState.mk [(2, Conn.mk "bob" "abcde" 2)]
          [("room:abcde", V1.RoomState.mk [Slot.mk "alice" 1, Slot.mk "bob" 2]
            [("alice", 0), ("bob", 0)] 1 [] true false)]
          [])).1.graceTimers = [] ++ [((Conn.mk "bob" "abcde" 2).username, "room:abcde")] ∧
    (∀ (s2 : V1.GState) (rs2 : V1.RoomState) (rem : Int),
        lookupKey s2.roomStates "room:abcde" = some rs2 → rs2.paused = true →
        V1.roundTick "room:abcde" rem s2 = some (s2, [], rem)) :=
  C6_pause_variant_cancels
    (V1.GState.mk [(2, Conn.mk "bob" "abcde" 2)]
      [("room:abcde", V1.RoomState.mk [Slot.mk "alice" 1, Slot.mk "bob" 2]
        [("alice", 0), ("bob", 0)] 1 [] true false)]
      [])
    2 "room:abcde" (Conn.mk "bob" "abcde" 2)
    (V1.RoomState.mk [Slot.mk "alice" 1, Slot.mk "bob" 2] [("alice", 0), ("bob", 0)] 1 [] true false)
    (by decide) (by decide)


/-! ### C2: room capacity -/

theorem sj_removeUser_bounded (sid : Nat) (room : String) (s : SJ.GState)
    (h : SJ.roomsBounded s) : SJ.roomsBounded (SJ.removeUserFromRoom sid room s) := by
  intro R2 l2 h2
  simp only [SJ.removeUserFromRoom] at h2
  cases hl : lookupKey s.roomStates room with
  | none =>
    rw [hl] at h2
    exact h R2 l2 h2
  | some l =>
    rw [hl] at h2
    simp only at h2
    by_cases hz : (l.filter (fun i => !(i == sid))).length = 0
    · rw [if_pos hz] at h2
      by_cases hR : R2 = room
      · subst hR
        rw [lookupKey_eraseKey_self] at h2
        cases h2
      · rw [lookupKey_eraseKey_ne _ _ _ hR] at h2
        exact h R2 l2 h2
    · rw [if_neg hz] at h2
      by_cases hR : R2 = room
      · subst hR
        rw [lookupKey_setKey_self] at h2
        injection h2 with h3
        subst h3
        exact le_trans (List.length_filter_le _ _) (h _ _ hl)
      · rw [lookupKey_setKey_ne _ _ _ _ hR] at h2
        exact h R2 l2 h2

theorem sj_connect_bounded (sid : Nat) (u room : String) (s : SJ.GState)
    (h : SJ.roomsBounded s) : SJ.roomsBounded (SJ.handleConnectToRoom sid u room s).1 := by
  unfold SJ.handleConnectToRoom
  by_cases hval : u = "" ∨ room.length ≤ 4
  · rw [if_pos hval]
    exact h
  · rw [if_neg hval]
    cases hreg : lookupKey s.connectedUsers sid with
    | some e => exact h
    | none =>
      by_cases hfull : (match lookupKey s.roomStates ("room:" ++ room) with
          | some l => decide (2 ≤ l.length)
          | none => false) = true
      · simp only [hfull, if_true]
        exact h
      · simp only [hfull, if_false, Bool.false_eq_true]
        intro R2 l2 h2
        simp only at h2
        by_cases hR : R2 = "room:" ++ room
        · subst hR
          rw [lookupKey_setKey_self] at h2
          injection h2 with h3
          subst h3
          cases hl : lookupKey s.roomStates ("room:" ++ room) with
          | none => simp [hl]
          | some l =>
            have hle : ¬ 2 ≤ l.length := by
              rw [hl] at hfull
              simpa using hfull
            simp only [hl, List.length_append, List.length_cons, List.length_nil]
            omega
        · rw [lookupKey_setKey_ne _ _ _ _ hR] at h2
          exact h R2 l2 h2

theorem sj_disconnect_aux (rooms : List String) (sid : Nat) (p : SJ.GState × List SJ.Emit)
    (h : SJ.roomsBounded p.1) :
    SJ.roomsBounded ((rooms.foldl
      (fun acc room =>
        match lookupKey acc.1.connectedUsers sid with
        | some user =>
          (SJ.removeUserFromRoom sid room acc.1,
           acc.2 ++ [SJ.Emit.toRoom room "room-event:disconnect" (user.username ++ " left " ++ room)])
        | none => acc) p).1) := by
  induction rooms generalizing p with
  | nil => exact h
  | cons r rest ih =>
    rw [List.foldl_cons]
    apply ih
    cases hreg : lookupKey p.1.connectedUsers sid with
    | some user =>
      simp only [hreg]
      exact sj_removeUser_bounded sid r p.1 h
    | none =>
      simp only [hreg]
      exact h

theorem sj_disconnect_bounded (sid : Nat) (rooms : List String) (s : SJ.GState)
    (h : SJ.roomsBounded s) : SJ.roomsBounded (SJ.handleDisconnecting sid rooms s).1 := by
  intro R2 l2 h2
  exact sj_disconnect_aux rooms sid (s, []) h R2 l2 h2

theorem sj_step_bounded (e : SJ.Event) (s : SJ.GState) (h : SJ.roomsBounded s) :
    SJ.roomsBounded (SJ.step e s).1 := by
  cases e with
  | connect sid u r => exact sj_connect_bounded sid u r s h
  | disconnect sid rooms => exact sj_disconnect_bounded sid rooms s h

theorem sj_run_bounded (evts : List SJ.Event) (s : SJ.GState) (h : SJ.roomsBounded s) :
    SJ.roomsBounded (SJ.run evts s).1 := by
  induction evts generalizing s with
  | nil => exact h
  | cons e rest ih => exact ih _ (sj_step_bounded e s h)

/-- C2 as amended: in the `src/socket.js` variant, after any sequence of
join and disconnect events no room ever holds more than 2 connected
sockets, and a join to a room already holding 2 connected sockets (in
particular one already seating 2 distinct active usernames, with the
joiner a third) is answered by a "room full" error to the joiner alone
with no state mutated.  The game revision in part_000 performs no such
check and admits a third join (see the counterexample). -/
theorem C2_socketjs_capacity :
    (∀ (evts : List SJ.Event) (R : String) (l : List Nat),
        lookupKey (SJ.run evts SJ.initState).1.roomStates R = some l → l.length ≤ 2) ∧
    (∀ (s : SJ.GState) (sid : Nat) (u room : String) (l : List Nat),
        u ≠ "" → ¬ room.length ≤ 4 → lookupKey s.connectedUsers sid = none →
        lookupKey s.roomStates ("room:" ++ room) = some l → 2 ≤ l.length →
        SJ.handleConnectToRoom sid u room s = (s, [SJ.Emit.toSocket sid "exception" "room full"])) := by
  constructor
  · intro evts R l hl
    refine sj_run_bounded evts SJ.initState ?_ R l hl
    intro R0 l0 h0
    simp [SJ.initState, lookupKey] at h0
  · intro s sid u room l hu hr hreg hroom hfull
    have hval : ¬(u = "" ∨ room.length ≤ 4) := by simp [hu, hr]
    have hfull2 : (match lookupKey s.roomStates ("room:" ++ room) with
        | some l0 => decide (2 ≤ l0.length)
        | none => false) = true := by
      rw [hroom]
      simpa using hfull
    simp only [SJ.handleConnectToRoom, if_neg hval, hreg, hfull2, if_true]

/-- Witness for C2: carol tries to join "abcde" while sockets 1 and 2 are
already connected there; she alone receives "room full" and nothing
changes. -/
theorem C2_socketjs_capacity_witness :
    SJ.handleConnectToRoom 3 "carol" "abcde" (SJ.GState.mk [] [("room:abcde", [1, 2])])
      = (SJ.GState.mk [] [("room:abcde", [1, 2])],
         [SJ.Emit.toSocket 3 "exception" "room full"]) :=
  C2_socketjs_capacity.2 (SJ.GState.mk [] [("room:abcde", [1, 2])]) 3 "carol" "abcde" [1, 2]
    (by decide) (by decide) (by decide) (by decide) (by decide)

end RPSGame
